import Mathlib

/-!
Verification of the snapshot collection / persistence / retention subsystem of
the ExtraRank repository (`app/db.py`, `app/main.py`).

The embedding models:
  * Python/JSON dynamic values (`Json`), with numbers as rationals;
  * the SQLite database state (`DB`) with the three tables of `SCHEMA`;
  * `save_snapshot`, `rotate_old_snapshots` from `app/db.py`;
  * the `/snapshots/{id}` reader, `/snapshots/rotate` and `/snapshots/trigger`
    handlers from `app/main.py`.

Modelling conventions:
  * SQLite assigns rowids from an increasing counter (`nextSnapId` etc.).
  * Python's `sqlite3` runs all the INSERTs of `save_snapshot` in one implicit
    transaction that is published only by `conn.commit()`; a statement that
    raises leaves the database unchanged (the connection is dropped without
    commit).  External statement failures are modelled by an oracle `failAt`
    giving the index of the first statement that raises, if any.
  * `json.dumps` output is modelled by the `JsonText.doc` constructor: the
    serialized text of a `Json` value.  `json.dumps` round-trips the values of
    the `Json` inductive, its output is never the empty string (so it is never
    falsy in Python), and `json.loads` recovers the value.  Arbitrary other
    column text (which may fail to parse) is `JsonText.text`.
  * Binding a Python value as a SQL parameter stores scalars as themselves,
    `True`/`False` as the integers 1/0, and raises `InterfaceError` for a dict
    or list (`bindOk`/`bindVal`).
  * `PRAGMA foreign_keys = ON` appears only inside `SCHEMA`, executed on the
    `init_db` connection; `get_conn` never issues it, and SQLite leaves
    foreign-key enforcement OFF by default on every new connection.  Hence the
    `ON DELETE CASCADE` clauses of the schema do not fire on the connection
    used by `rotate_old_snapshots`, and its DELETE touches only `snapshots`.
-/

namespace ExtraRank

/-- A Python/JSON dynamic value.  Numbers are modelled as rationals (the
claims under verification never depend on floating-point rounding). -/
inductive Json where
  | null : Json
  | bool : Bool → Json
  | num : ℚ → Json
  | str : String → Json
  | arr : List Json → Json
  | obj : List (String × Json) → Json
  deriving Repr

/-- Python truthiness of a value: `None`, `False`, `0`, `""`, `[]`, `{}`
are falsy, everything else truthy. -/
def pyTruthy : Json → Bool
  | Json.null => false
  | Json.bool b => b
  | Json.num q => decide (q ≠ 0)
  | Json.str s => decide (s ≠ "")
  | Json.arr xs => !xs.isEmpty
  | Json.obj kvs => !kvs.isEmpty

/-- `d.get(k)` on a dict, as an `Option`: `none` when the key is absent. -/
def objGet (kvs : List (String × Json)) (k : String) : Option Json :=
  (kvs.find? (fun kv => kv.1 == k)).map (fun kv => kv.2)

/-- `v.get(k, dflt)` where `v` may be any Python value: raises
`AttributeError` when `v` is not a dict (the string is the exception text). -/
def pyGetD (v : Json) (k : String) (dflt : Json) : Except String Json :=
  match v with
  | Json.obj kvs => Except.ok ((objGet kvs k).getD dflt)
  | _ => Except.error "AttributeError: object has no attribute get"

/-- Python `a or b`: `a` when truthy, else `b`. -/
def pyOr (a b : Json) : Json := if pyTruthy a then a else b

/-- Does the value bind as a SQL parameter?  `sqlite3` accepts `None`,
numbers, strings and booleans; a dict or list raises `InterfaceError`. -/
def bindOk : Json → Bool
  | Json.arr _ => false
  | Json.obj _ => false
  | _ => true

/-- The stored form of a bound scalar: `sqlite3` adapts `True`/`False` to the
integers 1/0; other scalars are stored as themselves. -/
def bindVal : Json → Json
  | Json.bool b => Json.num (if b then 1 else 0)
  | v => v

/-- Is the value a string or `None` (the shapes the data model gives the
text-valued row fields)? -/
def textLike : Json → Bool
  | Json.null => true
  | Json.str _ => true
  | _ => false

/-- Is the value a number or `None` (the shapes the data model gives the
`score` field)? -/
def numOrNull : Json → Bool
  | Json.null => true
  | Json.num _ => true
  | _ => false

/-- The contents of a TEXT column holding JSON text.  `doc j` is the output of
`json.dumps` on `j` (non-empty text whose `json.loads` is `j`); `text s` is
arbitrary other text. -/
inductive JsonText where
  | doc : Json → JsonText
  | text : String → JsonText
  deriving Repr

/-- Python truthiness of the column text: only the empty string is falsy, and
`json.dumps` never produces the empty string. -/
def textFalsy : JsonText → Bool
  | JsonText.doc _ => false
  | JsonText.text s => decide (s = "")

/-- `json.loads` on the column text: a dumped document parses back to its
value; other text is modelled as failing to parse. -/
def jsonLoads : JsonText → Except String Json
  | JsonText.doc j => Except.ok j
  | JsonText.text _ => Except.error "json.decoder.JSONDecodeError"

/-- The raw text of the column, used by the readers' exception fallback
(only reachable for `text`). -/
def rawText : JsonText → String
  | JsonText.doc _ => ""
  | JsonText.text s => s

/-- `_safe_float(v)` from `app/db.py`: `float(v)` under `try/except`.
`float` of a number is the number, of a boolean 1.0/0.0; `None`, dicts and
lists raise, giving `None`.  (Python additionally parses numeric strings;
string-typed scores are not produced by the system and no claim depends on
them, so they are modelled as failing.) -/
def safe_float : Json → Option ℚ
  | Json.num q => some q
  | Json.bool b => some (if b then 1 else 0)
  | _ => none

/-! ### Database state: the three tables of `SCHEMA` in `app/db.py` -/

/-- A row of the `snapshots` table. -/
structure SnapRow where
  id : Nat
  created_at : String
  server : String
  notes : String
  deriving Repr, DecidableEq

/-- A row of the `psi_results` table. -/
structure PsiRow where
  id : Nat
  snapshot_id : Nat
  url : Json
  status : Json
  score : Option ℚ
  lcp : Json
  cls : Json
  raw_json : JsonText
  deriving Repr

/-- A row of the `geo_results` table. -/
structure GeoRow where
  id : Nat
  snapshot_id : Nat
  query : Json
  status : Json
  result_json : JsonText
  deriving Repr

/-- The SQLite database state.  Lists hold rows in rowid (insertion) order;
`next*Id` model the AUTOINCREMENT counters (always ≥ 1 in a real database). -/
structure DB where
  snapshots : List SnapRow
  psi : List PsiRow
  geo : List GeoRow
  nextSnapId : Nat
  nextPsiId : Nat
  nextGeoId : Nat
  deriving Repr

/-- A psi row dict as supplied to `save_snapshot`
(`{url,status,score,lcp,cls,raw}`). -/
structure PsiIn where
  url : Json
  status : Json
  score : Json
  lcp : Json
  cls : Json
  raw : Json
  deriving Repr

/-- A geo row dict as supplied to `save_snapshot` (`{query,status,result}`). -/
structure GeoIn where
  query : Json
  status : Json
  result : Json
  deriving Repr

/-! ### `save_snapshot` (app/db.py lines 48-73) -/

/-- The `psi_results` row inserted for input `r` (statement
`INSERT INTO psi_results(snapshot_id, url, status, score, lcp, cls, raw_json)`
with parameters `(snapshot_id, r.get("url"), r.get("status"),
_safe_float(r.get("score")), r.get("lcp"), r.get("cls"),
json.dumps(r.get("raw", {})))`). -/
def mkPsiRow (sid pid : Nat) (r : PsiIn) : PsiRow :=
  ⟨pid, sid, bindVal r.url, bindVal r.status, safe_float r.score,
   bindVal r.lcp, bindVal r.cls, JsonText.doc r.raw⟩

/-- Parameter binding for a psi insert: raises `InterfaceError` when a field
is a dict or list (the dumped `raw_json` is always a string). -/
def insertPsiOk (r : PsiIn) : Bool :=
  bindOk r.url && bindOk r.status && bindOk r.lcp && bindOk r.cls

/-- The `geo_results` row inserted for input `r`.  The source's conditional
`r.get("result") if isinstance(r.get("result"), (dict, list)) else
r.get("result")` is a no-op (both branches are the same expression), so the
stored text is `json.dumps(r.get("result"))`. -/
def mkGeoRow (sid gid : Nat) (r : GeoIn) : GeoRow :=
  ⟨gid, sid, bindVal r.query, bindVal r.status, JsonText.doc r.result⟩

/-- Parameter binding for a geo insert. -/
def insertGeoOk (r : GeoIn) : Bool :=
  bindOk r.query && bindOk r.status

/-- The psi rows committed for inputs `rows`, with rowids from `pid`. -/
def storedPsiRows (sid : Nat) : Nat → List PsiIn → List PsiRow
  | _, [] => []
  | pid, r :: rs => mkPsiRow sid pid r :: storedPsiRows sid (pid + 1) rs

/-- The geo rows committed for inputs `rows`, with rowids from `gid`. -/
def storedGeoRows (sid : Nat) : Nat → List GeoIn → List GeoRow
  | _, [] => []
  | gid, r :: rs => mkGeoRow sid gid r :: storedGeoRows sid (gid + 1) rs

/-- Run the psi INSERT loop over the pending (uncommitted) state.  `idx` is
the index of the next statement in the transaction; the oracle `failAt`
names the statement that raises, if any. -/
def runPsiInserts (pending : DB) (sid : Nat) (rows : List PsiIn) (idx : Nat)
    (failAt : Option Nat) : Except String (DB × Nat) :=
  match rows with
  | [] => Except.ok (pending, idx)
  | r :: rs =>
    if failAt = some idx then Except.error "sqlite3.OperationalError" else
    if insertPsiOk r then
      runPsiInserts
        { pending with psi := pending.psi ++ [mkPsiRow sid pending.nextPsiId r],
                       nextPsiId := pending.nextPsiId + 1 } sid rs (idx + 1) failAt
    else Except.error "sqlite3.InterfaceError"

/-- Run the geo INSERT loop over the pending state. -/
def runGeoInserts (pending : DB) (sid : Nat) (rows : List GeoIn) (idx : Nat)
    (failAt : Option Nat) : Except String (DB × Nat) :=
  match rows with
  | [] => Except.ok (pending, idx)
  | r :: rs =>
    if failAt = some idx then Except.error "sqlite3.OperationalError" else
    if insertGeoOk r then
      runGeoInserts
        { pending with geo := pending.geo ++ [mkGeoRow sid pending.nextGeoId r],
                       nextGeoId := pending.nextGeoId + 1 } sid rs (idx + 1) failAt
    else Except.error "sqlite3.InterfaceError"

/-- `save_snapshot(db_path, server, notes, psi_rows, geo_rows)`: one
snapshot INSERT (statement 0), the psi and geo INSERT loops, then
`conn.commit()`.  A raising statement aborts the function with nothing
committed, so the durable state is unchanged; on success the whole pending
state is published and `cur.lastrowid` is returned. -/
def save_snapshot (db : DB) (now server notes : String)
    (psiIns : List PsiIn) (geoIns : List GeoIn) (failAt : Option Nat) :
    Except String Nat × DB :=
  if failAt = some 0 then (Except.error "sqlite3.OperationalError", db) else
  let sid := db.nextSnapId
  let p0 : DB :=
    { db with snapshots := db.snapshots ++ [⟨sid, now, server, notes⟩],
              nextSnapId := sid + 1 }
  match runPsiInserts p0 sid psiIns 1 failAt with
  | Except.error e => (Except.error e, db)
  | Except.ok (p1, idx) =>
    match runGeoInserts p1 sid geoIns idx failAt with
    | Except.error e => (Except.error e, db)
    | Except.ok (p2, _) => (Except.ok sid, p2)

/-! ### Retention (`rotate_old_snapshots`, app/db.py lines 81-102) -/

/-- Lexicographic comparison of character lists by codepoint. -/
def strLtAux : List Char → List Char → Bool
  | [], [] => false
  | [], _ :: _ => true
  | _ :: _, [] => false
  | a :: as, b :: bs =>
    if a.toNat < b.toNat then true
    else if b.toNat < a.toNat then false
    else strLtAux as bs

/-- SQLite's `<` on TEXT values (BINARY collation: byte-wise comparison,
which on the ASCII ISO-8601 timestamps stored here is codepoint
lexicographic order). -/
def strLt (a b : String) : Bool := strLtAux a.data b.data

/-- `SELECT COUNT(*) FROM snapshots WHERE created_at < cutoff`. -/
def countOlderThan (db : DB) (cutoff : String) : Nat :=
  (db.snapshots.filter (fun r => strLt r.created_at cutoff)).length

/-- `rotate_old_snapshots(db_path, keep_days)` with the computed cutoff as a
parameter.  Selects the ids older than the cutoff; when none, returns 0
without touching the database; otherwise `DELETE FROM snapshots WHERE
created_at < cutoff` and commit, returning the selected count.

The connection opened by `get_conn` never issues `PRAGMA foreign_keys = ON`
(SQLite defaults it to OFF per connection; the pragma inside `SCHEMA` applied
only to the `init_db` connection), so the schema's `ON DELETE CASCADE` does
not fire: the DELETE removes rows from `snapshots` only, leaving the
`psi_results` and `geo_results` tables untouched. -/
def rotate_old_snapshots (db : DB) (cutoff : String) : Nat × DB :=
  let ids := (db.snapshots.filter (fun r => strLt r.created_at cutoff)).map SnapRow.id
  if ids.isEmpty then (0, db)
  else (ids.length,
    { db with snapshots := db.snapshots.filter (fun r => !strLt r.created_at cutoff) })

/-- Is the database free of orphaned result rows (every `snapshot_id`
references an existing snapshot)? -/
def orphanFree (db : DB) : Bool :=
  db.psi.all (fun p => db.snapshots.any (fun s => s.id == p.snapshot_id)) &&
  db.geo.all (fun g => db.snapshots.any (fun s => s.id == g.snapshot_id))

/-! ### Readers (`app/main.py`: `list_snapshots`, `get_snapshot`) -/

/-- Insertion sort by a boolean "should come first or equal" comparator,
modelling `ORDER BY`. -/
def insertSorted (le : SnapRow → SnapRow → Bool) (x : SnapRow) :
    List SnapRow → List SnapRow
  | [] => [x]
  | y :: ys => if le x y then x :: y :: ys else y :: insertSorted le x ys

/-- Sort by a boolean comparator, modelling `ORDER BY`. -/
def sortRows (le : SnapRow → SnapRow → Bool) : List SnapRow → List SnapRow
  | [] => []
  | x :: xs => insertSorted le x (sortRows le xs)

/-- `GET /snapshots`: `SELECT id, created_at, server, notes FROM snapshots
ORDER BY created_at DESC LIMIT ? OFFSET ?`. -/
def list_snapshots (db : DB) (limit offset : Nat) : List SnapRow :=
  (((sortRows (fun a b => !strLt a.created_at b.created_at) db.snapshots).drop
    offset).take limit)

/-- A psi row as returned by `GET /snapshots/{id}` (the `raw_json` column
decoded; the `score` column rendered back as a Python value). -/
structure PsiOut where
  url : Json
  status : Json
  score : Json
  lcp : Json
  cls : Json
  raw : Json
  deriving Repr

/-- A geo row as returned by `GET /snapshots/{id}`. -/
structure GeoOut where
  query : Json
  status : Json
  result : Json
  deriving Repr

/-- A NULL/REAL `score` column read back as a Python value. -/
def scoreVal : Option ℚ → Json
  | none => Json.null
  | some q => Json.num q

/-- The reader's decode of the `raw_json` column:
`row["raw"] = json.loads(raw_json) if raw_json else {}`, and on a parse
exception `row["raw"] = raw_json`. -/
def decodePsiRaw (t : JsonText) : Json :=
  if textFalsy t then Json.obj [] else
  match jsonLoads t with
  | Except.ok j => j
  | Except.error _ => Json.str (rawText t)

/-- The reader's decode of the `result_json` column:
`row["result"] = json.loads(result_json) if result_json else None`, with the
same exception fallback. -/
def decodeGeoResult (t : JsonText) : Json :=
  if textFalsy t then Json.null else
  match jsonLoads t with
  | Except.ok j => j
  | Except.error _ => Json.str (rawText t)

/-- One psi row of the `GET /snapshots/{id}` response. -/
def decodePsiRow (r : PsiRow) : PsiOut :=
  ⟨r.url, r.status, scoreVal r.score, r.lcp, r.cls, decodePsiRaw r.raw_json⟩

/-- One geo row of the `GET /snapshots/{id}` response. -/
def decodeGeoRow (r : GeoRow) : GeoOut :=
  ⟨r.query, r.status, decodeGeoResult r.result_json⟩

/-- `GET /snapshots/{snapshot_id}`: the snapshot row by id (404 → `none`),
plus its psi and geo rows (`WHERE snapshot_id = ?`, returned in rowid order)
with the JSON columns decoded. -/
def get_snapshot (db : DB) (sid : Nat) :
    Option (SnapRow × List PsiOut × List GeoOut) :=
  match db.snapshots.find? (fun s => s.id == sid) with
  | none => none
  | some snap =>
    some (snap,
      (db.psi.filter (fun r => r.snapshot_id == sid)).map decodePsiRow,
      (db.geo.filter (fun r => r.snapshot_id == sid)).map decodeGeoRow)

/-! ### `POST /snapshots/rotate` (app/main.py lines 308-328) -/

/-- The rotate endpoint with the computed cutoff as a parameter.  The dry-run
branch runs only `SELECT COUNT(*) FROM snapshots WHERE created_at < ?` on its
connection and returns the count; the execute branch calls
`rotate_old_snapshots`.  Returns the reported count and the resulting
database state. -/
def api_rotate_snapshots (db : DB) (cutoff : String) (dryRun : Bool) :
    Nat × DB :=
  if dryRun then (countOlderThan db cutoff, db)
  else rotate_old_snapshots db cutoff

/-! ### `POST /snapshots/trigger` (app/main.py lines 340-428) -/

/-- The outcome of one `fetch_pagespeed` task under
`asyncio.gather(..., return_exceptions=True)`: the exception (as its string
form) or the returned response value. -/
inductive PsiOutcome where
  | err : String → PsiOutcome
  | ok : Json → PsiOutcome
  deriving Repr

/-- The row appended for a failed PSI task:
`{"url": u, "status": "error", "score": None, "lcp": None, "cls": None,
"raw": str(res)}`. -/
def psiErrorRow (u e : String) : PsiIn :=
  ⟨Json.str u, Json.str "error", Json.null, Json.null, Json.null, Json.str e⟩

/-- The field extraction of the success branch:
`summary = res.get("lighthouse_summary", {}) or {}`,
`core = summary.get("core_web_vitals", {}) or {}`, then
`summary.get("performance_score")`, `core.get("lcp")`, `core.get("cls")`,
`res.get("raw", {})`.  Reading a field of a truthy non-dict raises
`AttributeError`. -/
def extractPsiFields (resp : Json) :
    Except String (Json × Json × Json × Json) := do
  let s0 ← pyGetD resp "lighthouse_summary" (Json.obj [])
  let summary := pyOr s0 (Json.obj [])
  let c0 ← pyGetD summary "core_web_vitals" (Json.obj [])
  let core := pyOr c0 (Json.obj [])
  let score ← pyGetD summary "performance_score" Json.null
  let lcp ← pyGetD core "lcp" Json.null
  let cls ← pyGetD core "cls" Json.null
  let raw ← pyGetD resp "raw" (Json.obj [])
  Except.ok (score, lcp, cls, raw)

/-- The row appended for one PSI task.  An `AttributeError` raised during
extraction is not caught here and aborts the whole handler. -/
def buildPsiRow (u : String) (o : PsiOutcome) : Except String PsiIn :=
  match o with
  | PsiOutcome.err e => Except.ok (psiErrorRow u e)
  | PsiOutcome.ok resp =>
    (extractPsiFields resp).map
      (fun f => ⟨Json.str u, Json.str "ok", f.1, f.2.1, f.2.2.1, f.2.2.2⟩)

/-- The PSI loop `for u, res in zip(urls, results)`: rows are appended in
input order; an uncaught exception aborts the handler. -/
def psiSection : List String → List PsiOutcome → Except String (List PsiIn)
  | [], _ => Except.ok []
  | _, [] => Except.ok []
  | u :: us, o :: os => do
    let row ← buildPsiRow u o
    let rest ← psiSection us os
    Except.ok (row :: rest)

/-- The outcome of the single batched answer-provider call: either the call
or `json.loads` of its text raised, or the text parsed to a JSON value. -/
inductive GeoCallOutcome where
  | raised : String → GeoCallOutcome
  | parsed : Json → GeoCallOutcome
  deriving Repr

/-- The GEO configuration: `settings.OPENAI_API_KEY and openai` decides the
branch; when configured, the call's outcome is the oracle. -/
inductive GeoCfg where
  | unconfigured : GeoCfg
  | configured : GeoCallOutcome → GeoCfg
  deriving Repr

/-- The row appended per query in the `except` handler:
`{"query": q, "status": "error", "result": str(e)}`. -/
def geoErrorRow (e : String) (q : String) : GeoIn :=
  ⟨Json.str q, Json.str "error", Json.str e⟩

/-- The fallback row per query when the provider is unconfigured:
`{"query": q, "status": "stub", "result": {"note": "OpenAI not configured"}}`. -/
def geoStubRow (q : String) : GeoIn :=
  ⟨Json.str q, Json.str "stub", Json.obj [("note", Json.str "OpenAI not configured")]⟩

/-- Python iteration `for item in parsed`: arrays yield their elements,
dicts their keys, strings their characters; other values raise `TypeError`. -/
def pyIterate : Json → Except String (List Json)
  | Json.arr xs => Except.ok xs
  | Json.obj kvs => Except.ok (kvs.map (fun kv => Json.str kv.1))
  | Json.str s => Except.ok (s.toList.map (fun c => Json.str (String.singleton c)))
  | _ => Except.error "TypeError: object is not iterable"

/-- The body of the GEO loop for one parsed item (a dict); a non-dict item
raises `AttributeError` at `item.get`. -/
def geoOkRow (kvs : List (String × Json)) : GeoIn :=
  let q := (objGet kvs "query").getD Json.null
  let aiAnswer := pyOr ((objGet kvs "ai_answer").getD Json.null)
                        ((objGet kvs "answer").getD Json.null)
  let cited0 := pyOr ((objGet kvs "cited_domains").getD Json.null)
                 (pyOr ((objGet kvs "cited").getD Json.null) (Json.arr []))
  let cited := match cited0 with
    | Json.str s => Json.arr [Json.str s]
    | v => v
  ⟨q, Json.str "ok",
   Json.obj [("ai_answer", aiAnswer), ("cited_domains", cited)]⟩

/-- Process the parsed items in order.  On a mid-loop exception, the rows
already appended remain in `geo_rows` and are reported together with the
exception text (the `except` handler then appends its own rows). -/
def processGeoItems : List Json → Except (List GeoIn × String) (List GeoIn)
  | [] => Except.ok []
  | item :: rest =>
    match item with
    | Json.obj kvs =>
      (match processGeoItems rest with
       | Except.ok rows => Except.ok (geoOkRow kvs :: rows)
       | Except.error (pre, e) => Except.error (geoOkRow kvs :: pre, e))
    | _ => Except.error ([], "AttributeError: object has no attribute get")

/-- The GEO section of the trigger handler: guarded by `if queries:`; the
whole configured branch (call, parse, loop) is one `try` whose `except`
appends an error row for every query after whatever rows the loop already
appended. -/
def geoSection (queries : List String) (cfg : GeoCfg) : List GeoIn :=
  if queries.isEmpty then [] else
  match cfg with
  | GeoCfg.unconfigured => queries.map geoStubRow
  | GeoCfg.configured (GeoCallOutcome.raised e) => queries.map (geoErrorRow e)
  | GeoCfg.configured (GeoCallOutcome.parsed j) =>
    match pyIterate j with
    | Except.error e => queries.map (geoErrorRow e)
    | Except.ok items =>
      match processGeoItems items with
      | Except.ok rows => rows
      | Except.error (pre, e) => pre ++ queries.map (geoErrorRow e)

/-- The trigger endpoint's response body. -/
structure TriggerResponse where
  snapshot_id : Option Nat
  psi_count : Nat
  geo_count : Nat
  saved : Bool
  psi_rows : List PsiIn
  geo_rows : List GeoIn
  deriving Repr

/-- `rows if len(rows) <= 10 else rows[:10]`. -/
def previewRows (rows : List α) : List α :=
  if rows.length ≤ 10 then rows else rows.take 10

/-- `bool(snapshot_id)`: `None` and `0` are falsy. -/
def savedFlag : Option Nat → Bool
  | none => false
  | some n => decide (n ≠ 0)

/-- `payload.notes or "manual trigger"`. -/
def notesOr : Option String → String
  | none => "manual trigger"
  | some s => if s = "" then "manual trigger" else s

/-- The response dict built at the end of the handler. -/
def mkTriggerResponse (sid : Option Nat) (psiRows : List PsiIn)
    (geoRows : List GeoIn) : TriggerResponse :=
  ⟨sid, psiRows.length, geoRows.length, savedFlag sid,
   previewRows psiRows, previewRows geoRows⟩

/-- `POST /snapshots/trigger`.  `outcomes` are the gathered PSI task results
(one per URL), `cfg` the GEO configuration and call oracle, `initFail` the
exception raised by `init_db` if any, `failAt` the statement-failure oracle
of `save_snapshot`.  An `Except.error` is the handler raising
(`HTTPException(500)` for a persistence failure); the save `try` block wraps
`init_db` and `save_snapshot` and re-raises as
`"Failed to save snapshot: {e}"`. -/
def snapshots_trigger (db : DB) (urls : List String)
    (outcomes : List PsiOutcome) (queries : List String) (cfg : GeoCfg)
    (save : Bool) (notes : Option String) (server : String) (now : String)
    (initFail : Option String) (failAt : Option Nat) :
    Except String (TriggerResponse × DB) :=
  match psiSection urls outcomes with
  | Except.error e => Except.error e
  | Except.ok psiRows =>
    let geoRows := geoSection queries cfg
    if save then
      match initFail with
      | some e => Except.error ("Failed to save snapshot: " ++ e)
      | none =>
        match save_snapshot db now server (notesOr notes) psiRows geoRows failAt with
        | (Except.error e, _) => Except.error ("Failed to save snapshot: " ++ e)
        | (Except.ok sid, db') =>
          Except.ok (mkTriggerResponse (some sid) psiRows geoRows, db')
    else Except.ok (mkTriggerResponse none psiRows geoRows, db)

/-! ### Characterization of `save_snapshot` -/

/-- Two database states with equal fields are equal. -/
theorem DB.ext' {a b : DB}
    (h1 : a.snapshots = b.snapshots) (h2 : a.psi = b.psi) (h3 : a.geo = b.geo)
    (h4 : a.nextSnapId = b.nextSnapId) (h5 : a.nextPsiId = b.nextPsiId)
    (h6 : a.nextGeoId = b.nextGeoId) : a = b := by
  cases a; cases b; simp_all

/-- The fully committed state after a successful `save_snapshot`: the one
snapshot row plus every supplied psi and geo row. -/
def commitDB (db : DB) (now server notes : String)
    (psiIns : List PsiIn) (geoIns : List GeoIn) : DB :=
  { snapshots := db.snapshots ++ [⟨db.nextSnapId, now, server, notes⟩],
    psi := db.psi ++ storedPsiRows db.nextSnapId db.nextPsiId psiIns,
    geo := db.geo ++ storedGeoRows db.nextSnapId db.nextGeoId geoIns,
    nextSnapId := db.nextSnapId + 1,
    nextPsiId := db.nextPsiId + psiIns.length,
    nextGeoId := db.nextGeoId + geoIns.length }

theorem runPsiInserts_ok {sid : Nat} {failAt : Option Nat} :
    ∀ (rows : List PsiIn) (pending : DB) (idx : Nat) (p' : DB) (idx' : Nat),
      runPsiInserts pending sid rows idx failAt = Except.ok (p', idx') →
      p'.snapshots = pending.snapshots ∧
      p'.psi = pending.psi ++ storedPsiRows sid pending.nextPsiId rows ∧
      p'.geo = pending.geo ∧
      p'.nextSnapId = pending.nextSnapId ∧
      p'.nextPsiId = pending.nextPsiId + rows.length ∧
      p'.nextGeoId = pending.nextGeoId ∧
      idx' = idx + rows.length := by
  intro rows
  induction rows with
  | nil =>
    intro pending idx p' idx' h
    simp only [runPsiInserts, Except.ok.injEq, Prod.mk.injEq] at h
    obtain ⟨h1, h2⟩ := h
    subst h1; subst h2
    simp [storedPsiRows]
  | cons r rs ih =>
    intro pending idx p' idx' h
    rw [runPsiInserts] at h
    split at h
    · exact absurd h (by simp)
    · split at h
      · obtain ⟨e1, e2, e3, e4, e5, e6, e7⟩ := ih _ _ _ _ h
        dsimp only at e1 e2 e3 e4 e5 e6
        simp only [List.length_cons]
        refine ⟨e1, ?_, e3, e4, ?_, e6, ?_⟩
        · rw [e2]; simp [storedPsiRows, List.append_assoc]
        · omega
        · omega
      · exact absurd h (by simp)

theorem runGeoInserts_ok {sid : Nat} {failAt : Option Nat} :
    ∀ (rows : List GeoIn) (pending : DB) (idx : Nat) (p' : DB) (idx' : Nat),
      runGeoInserts pending sid rows idx failAt = Except.ok (p', idx') →
      p'.snapshots = pending.snapshots ∧
      p'.psi = pending.psi ∧
      p'.geo = pending.geo ++ storedGeoRows sid pending.nextGeoId rows ∧
      p'.nextSnapId = pending.nextSnapId ∧
      p'.nextPsiId = pending.nextPsiId ∧
      p'.nextGeoId = pending.nextGeoId + rows.length ∧
      idx' = idx + rows.length := by
  intro rows
  induction rows with
  | nil =>
    intro pending idx p' idx' h
    simp only [runGeoInserts, Except.ok.injEq, Prod.mk.injEq] at h
    obtain ⟨h1, h2⟩ := h
    subst h1; subst h2
    simp [storedGeoRows]
  | cons r rs ih =>
    intro pending idx p' idx' h
    rw [runGeoInserts] at h
    split at h
    · exact absurd h (by simp)
    · split at h
      · obtain ⟨e1, e2, e3, e4, e5, e6, e7⟩ := ih _ _ _ _ h
        dsimp only at e1 e2 e3 e4 e5 e6
        simp only [List.length_cons]
        refine ⟨e1, e2, ?_, e4, e5, ?_, ?_⟩
        · rw [e3]; simp [storedGeoRows, List.append_assoc]
        · omega
        · omega
      · exact absurd h (by simp)

/-- A statement failure leaves the durable state untouched (nothing was
committed). -/
theorem save_snapshot_error_state (db : DB) (now server notes : String)
    (psiIns : List PsiIn) (geoIns : List GeoIn) (failAt : Option Nat)
    (e : String)
    (h : (save_snapshot db now server notes psiIns geoIns failAt).1 =
      Except.error e) :
    (save_snapshot db now server notes psiIns geoIns failAt).2 = db := by
  by_cases h0 : failAt = some 0
  · simp [save_snapshot, h0]
  · simp only [save_snapshot, h0, if_false] at h ⊢
    rcases h1 : runPsiInserts
        { db with snapshots := db.snapshots ++ [⟨db.nextSnapId, now, server, notes⟩],
                  nextSnapId := db.nextSnapId + 1 } db.nextSnapId psiIns 1 failAt with
      e1 | ⟨p1, idx1⟩
    · simp [h1]
    · simp only [h1] at h ⊢
      rcases h2 : runGeoInserts p1 db.nextSnapId geoIns idx1 failAt with e2 | ⟨p2, idx2⟩
      · simp [h2]
      · simp only [h2] at h
        exact absurd h (by simp)

/-- A successful `save_snapshot` returns the id of the inserted snapshot row
and commits exactly the snapshot row plus every supplied result row. -/
theorem save_snapshot_ok_state (db : DB) (now server notes : String)
    (psiIns : List PsiIn) (geoIns : List GeoIn) (failAt : Option Nat)
    (sid : Nat)
    (h : (save_snapshot db now server notes psiIns geoIns failAt).1 =
      Except.ok sid) :
    sid = db.nextSnapId ∧
    (save_snapshot db now server notes psiIns geoIns failAt).2 =
      commitDB db now server notes psiIns geoIns := by
  by_cases h0 : failAt = some 0
  · simp [save_snapshot, h0] at h
  · simp only [save_snapshot, h0, if_false] at h ⊢
    rcases h1 : runPsiInserts
        { db with snapshots := db.snapshots ++ [⟨db.nextSnapId, now, server, notes⟩],
                  nextSnapId := db.nextSnapId + 1 } db.nextSnapId psiIns 1 failAt with
      e1 | ⟨p1, idx1⟩
    · simp [h1] at h
    · simp only [h1] at h ⊢
      rcases h2 : runGeoInserts p1 db.nextSnapId geoIns idx1 failAt with e2 | ⟨p2, idx2⟩
      · simp [h2] at h
      · simp only [h2] at h ⊢
        simp at h
        obtain ⟨a1, a2, a3, a4, a5, a6, a7⟩ := runPsiInserts_ok psiIns _ 1 p1 idx1 h1
        obtain ⟨b1, b2, b3, b4, b5, b6, b7⟩ := runGeoInserts_ok geoIns p1 idx1 p2 idx2 h2
        dsimp only at a1 a2 a3 a4 a5 a6
        refine ⟨h.symm, ?_⟩
        refine DB.ext' ?_ ?_ ?_ ?_ ?_ ?_ <;>
          simp_all [commitDB]

/-- C1: `save_snapshot` inserts the one snapshot row and all of the supplied
psi/geo rows within a single transaction and returns the assigned snapshot
id; whenever any insert statement fails, the entire write is rolled back, so
the persisted state is exactly the pre-call state — no snapshot with a
partially written row set is ever persisted. -/
theorem save_snapshot_atomic (db : DB) (now server notes : String)
    (psiIns : List PsiIn) (geoIns : List GeoIn) (failAt : Option Nat) :
    (∀ e, (save_snapshot db now server notes psiIns geoIns failAt).1 =
        Except.error e →
      (save_snapshot db now server notes psiIns geoIns failAt).2 = db) ∧
    (∀ sid, (save_snapshot db now server notes psiIns geoIns failAt).1 =
        Except.ok sid →
      sid = db.nextSnapId ∧
      (save_snapshot db now server notes psiIns geoIns failAt).2 =
        commitDB db now server notes psiIns geoIns) :=
  ⟨fun e he => save_snapshot_error_state db now server notes psiIns geoIns failAt e he,
   fun sid hs => save_snapshot_ok_state db now server notes psiIns geoIns failAt sid hs⟩

/-- Witness for C1 at concrete inputs: with the second statement failing the
state is unchanged, and with no failure the full snapshot is committed. -/
theorem save_snapshot_atomic_witness :
    (save_snapshot ⟨[], [], [], 1, 1, 1⟩ "2024-01-01T00:00:00Z" "local" "n"
        [⟨Json.str "https://a.com", Json.str "ok", Json.num (91/100),
          Json.null, Json.null, Json.obj []⟩] [] (some 1)).2 =
      (⟨[], [], [], 1, 1, 1⟩ : DB) ∧
    (save_snapshot ⟨[], [], [], 1, 1, 1⟩ "2024-01-01T00:00:00Z" "local" "n"
        [⟨Json.str "https://a.com", Json.str "ok", Json.num (91/100),
          Json.null, Json.null, Json.obj []⟩] [] none).2 =
      commitDB ⟨[], [], [], 1, 1, 1⟩ "2024-01-01T00:00:00Z" "local" "n"
        [⟨Json.str "https://a.com", Json.str "ok", Json.num (91/100),
          Json.null, Json.null, Json.obj []⟩] [] :=
  ⟨(save_snapshot_atomic ⟨[], [], [], 1, 1, 1⟩ "2024-01-01T00:00:00Z" "local" "n"
      [⟨Json.str "https://a.com", Json.str "ok", Json.num (91/100),
        Json.null, Json.null, Json.obj []⟩] [] (some 1)).1
      "sqlite3.OperationalError" rfl,
   ((save_snapshot_atomic ⟨[], [], [], 1, 1, 1⟩ "2024-01-01T00:00:00Z" "local" "n"
      [⟨Json.str "https://a.com", Json.str "ok", Json.num (91/100),
        Json.null, Json.null, Json.obj []⟩] [] none).2 1 rfl).2⟩

/-! ### C2: retention does not cascade (code bug) -/

/-- A database holding one old snapshot that owns one psi row and one geo
row. -/
def dbWithOwnedRows : DB :=
  ⟨[⟨1, "2020-01-01T00:00:00Z", "local", "n"⟩],
   [⟨1, 1, Json.str "https://a.com", Json.str "ok", some 1, Json.null,
     Json.null, JsonText.doc (Json.obj [])⟩],
   [⟨1, 1, Json.str "best plumber", Json.str "stub", JsonText.doc Json.null⟩],
   2, 2, 2⟩

/-- C2 (code bug): deleting the expired snapshot via `rotate_old_snapshots`
deletes only the `snapshots` row.  Because `get_conn` never issues
`PRAGMA foreign_keys = ON` (the pragma in `SCHEMA` applied only to the
`init_db` connection, and SQLite defaults enforcement to OFF per
connection), the declared `ON DELETE CASCADE` does not fire: both result
rows survive and reference a snapshot that no longer exists. -/
theorem rotate_leaves_orphans :
    (rotate_old_snapshots dbWithOwnedRows "2024-01-01T00:00:00Z").1 = 1 ∧
    (rotate_old_snapshots dbWithOwnedRows "2024-01-01T00:00:00Z").2.snapshots = [] ∧
    (rotate_old_snapshots dbWithOwnedRows "2024-01-01T00:00:00Z").2.psi.length = 1 ∧
    (rotate_old_snapshots dbWithOwnedRows "2024-01-01T00:00:00Z").2.geo.length = 1 ∧
    orphanFree (rotate_old_snapshots dbWithOwnedRows "2024-01-01T00:00:00Z").2 = false := by
  decide

/-! ### C8: dry-run retention never mutates -/

/-- C8: the dry-run branch of `POST /snapshots/rotate` runs only a
`SELECT COUNT(*)` — it returns the would-delete count and leaves every table
(and hence the `list_snapshots` output) exactly as it was. -/
theorem dry_run_rotate_no_mutation (db : DB) (cutoff : String)
    (limit offset : Nat) :
    (api_rotate_snapshots db cutoff true).1 = countOlderThan db cutoff ∧
    (api_rotate_snapshots db cutoff true).2.snapshots = db.snapshots ∧
    (api_rotate_snapshots db cutoff true).2.psi = db.psi ∧
    (api_rotate_snapshots db cutoff true).2.geo = db.geo ∧
    list_snapshots (api_rotate_snapshots db cutoff true).2 limit offset =
      list_snapshots db limit offset :=
  ⟨rfl, rfl, rfl, rfl, rfl⟩

/-! ### C9: retention execution is idempotent -/

theorem filter_not_filter (l : List SnapRow) (cutoff : String) :
    (l.filter (fun r => !strLt r.created_at cutoff)).filter
      (fun r => strLt r.created_at cutoff) = [] := by
  induction l with
  | nil => rfl
  | cons x xs ih =>
    cases hx : strLt x.created_at cutoff <;> simp [List.filter_cons, hx, ih]

theorem filter_not_of_filter_nil (l : List SnapRow) (cutoff : String)
    (h : l.filter (fun r => strLt r.created_at cutoff) = []) :
    l.filter (fun r => !strLt r.created_at cutoff) = l := by
  induction l with
  | nil => rfl
  | cons x xs ih =>
    cases hx : strLt x.created_at cutoff
    · rw [List.filter_cons_of_neg (by simp [hx])] at h
      rw [List.filter_cons_of_pos (by simp [hx]), ih h]
    · simp [List.filter_cons, hx] at h

/-- `rotate_old_snapshots` in closed form: it returns the number of
snapshots older than the cutoff and removes exactly those rows (both when
the early `if not ids` return fires and when the DELETE runs). -/
theorem rotate_eq (db : DB) (cutoff : String) :
    rotate_old_snapshots db cutoff =
      ((db.snapshots.filter (fun r => strLt r.created_at cutoff)).length,
       { db with snapshots :=
          db.snapshots.filter (fun r => !strLt r.created_at cutoff) }) := by
  rw [rotate_old_snapshots]
  cases hf : db.snapshots.filter (fun r => strLt r.created_at cutoff) with
  | nil =>
    simp [hf, filter_not_of_filter_nil db.snapshots cutoff hf]
  | cons y ys =>
    simp [hf]

/-- C9: after `rotate_old_snapshots` runs at a cutoff, no snapshot older
than that cutoff remains, and an immediately repeated call with the same
cutoff deletes nothing, returns 0 and leaves the state unchanged. -/
theorem rotate_idempotent (db : DB) (cutoff : String) :
    ((rotate_old_snapshots db cutoff).2.snapshots.filter
      (fun r => strLt r.created_at cutoff)) = [] ∧
    rotate_old_snapshots (rotate_old_snapshots db cutoff).2 cutoff =
      (0, (rotate_old_snapshots db cutoff).2) := by
  have hzero := filter_not_filter db.snapshots cutoff
  have hkeep := filter_not_of_filter_nil
    (db.snapshots.filter (fun r => !strLt r.created_at cutoff)) cutoff hzero
  constructor
  · simp [rotate_eq, hzero]
  · simp [rotate_eq, hzero, hkeep]

/-! ### C5: write–read round-trip -/

theorem bindVal_textLike (v : Json) (h : textLike v = true) : bindVal v = v := by
  cases v <;> simp [textLike] at h ⊢ <;> rfl

theorem scoreVal_safe_float (v : Json) (h : numOrNull v = true) :
    scoreVal (safe_float v) = v := by
  cases v <;> simp [numOrNull] at h ⊢ <;> rfl

theorem find_fresh_snap (xs : List SnapRow) (y : SnapRow)
    (h : ∀ x ∈ xs, x.id ≠ y.id) :
    (xs ++ [y]).find? (fun s => s.id == y.id) = some y := by
  induction xs with
  | nil => simp
  | cons x xs ih =>
    have hx : (x.id == y.id) = false := by
      simpa using h x (List.mem_cons_self x xs)
    simp only [List.cons_append, List.find?_cons, hx]
    exact ih (fun a ha => h a (List.mem_cons_of_mem x ha))

theorem filter_psi_fresh (xs : List PsiRow) (sid : Nat)
    (h : ∀ r ∈ xs, r.snapshot_id ≠ sid) :
    xs.filter (fun r => r.snapshot_id == sid) = [] := by
  induction xs with
  | nil => rfl
  | cons x xs ih =>
    have hx : (x.snapshot_id == sid) = false := by
      simpa using h x (List.mem_cons_self x xs)
    simp only [List.filter_cons, hx]
    exact ih (fun a ha => h a (List.mem_cons_of_mem x ha))

theorem filter_geo_fresh (xs : List GeoRow) (sid : Nat)
    (h : ∀ r ∈ xs, r.snapshot_id ≠ sid) :
    xs.filter (fun r => r.snapshot_id == sid) = [] := by
  induction xs with
  | nil => rfl
  | cons x xs ih =>
    have hx : (x.snapshot_id == sid) = false := by
      simpa using h x (List.mem_cons_self x xs)
    simp only [List.filter_cons, hx]
    exact ih (fun a ha => h a (List.mem_cons_of_mem x ha))

theorem storedPsi_filter_own (sid : Nat) :
    ∀ (pid : Nat) (rows : List PsiIn),
    (storedPsiRows sid pid rows).filter (fun r => r.snapshot_id == sid) =
      storedPsiRows sid pid rows := by
  intro pid rows
  induction rows generalizing pid with
  | nil => rfl
  | cons r rs ih => simp [storedPsiRows, List.filter_cons, mkPsiRow, ih]

theorem storedGeo_filter_own (sid : Nat) :
    ∀ (gid : Nat) (rows : List GeoIn),
    (storedGeoRows sid gid rows).filter (fun r => r.snapshot_id == sid) =
      storedGeoRows sid gid rows := by
  intro gid rows
  induction rows generalizing gid with
  | nil => rfl
  | cons r rs ih => simp [storedGeoRows, List.filter_cons, mkGeoRow, ih]

theorem storedPsi_decode (sid : Nat) :
    ∀ (pid : Nat) (rows : List PsiIn),
    (∀ r ∈ rows, textLike r.url = true ∧ textLike r.status = true ∧
      numOrNull r.score = true ∧ textLike r.lcp = true ∧ textLike r.cls = true) →
    (storedPsiRows sid pid rows).map decodePsiRow =
      rows.map (fun r => (⟨r.url, r.status, r.score, r.lcp, r.cls, r.raw⟩ : PsiOut)) := by
  intro pid rows
  induction rows generalizing pid with
  | nil => intro _; rfl
  | cons r rs ih =>
    intro h
    obtain ⟨h1, h2, h3, h4, h5⟩ := h r (List.mem_cons_self r rs)
    simp only [storedPsiRows, List.map_cons]
    rw [ih (pid + 1) (fun a ha => h a (List.mem_cons_of_mem r ha))]
    simp [decodePsiRow, mkPsiRow, decodePsiRaw, textFalsy, jsonLoads,
      bindVal_textLike _ h1, bindVal_textLike _ h2, scoreVal_safe_float _ h3,
      bindVal_textLike _ h4, bindVal_textLike _ h5]

theorem storedGeo_decode (sid : Nat) :
    ∀ (gid : Nat) (rows : List GeoIn),
    (∀ r ∈ rows, textLike r.query = true ∧ textLike r.status = true) →
    (storedGeoRows sid gid rows).map decodeGeoRow =
      rows.map (fun r => (⟨r.query, r.status, r.result⟩ : GeoOut)) := by
  intro gid rows
  induction rows generalizing gid with
  | nil => intro _; rfl
  | cons r rs ih =>
    intro h
    obtain ⟨h1, h2⟩ := h r (List.mem_cons_self r rs)
    simp only [storedGeoRows, List.map_cons]
    rw [ih (gid + 1) (fun a ha => h a (List.mem_cons_of_mem r ha))]
    simp [decodeGeoRow, mkGeoRow, decodeGeoResult, textFalsy, jsonLoads,
      bindVal_textLike _ h1, bindVal_textLike _ h2]

/-- C5: `save_snapshot` followed by `get_snapshot` on the returned id
round-trips: for rows of the shapes the data model produces (text-valued
`url`/`status`/`lcp`/`cls`/`query`, numeric-or-null `score`, arbitrary
JSON `raw`/`result`), every persisted row field — including the JSON-encoded
`raw`/`result` columns — decodes back to a value structurally equal to the
one that was written, in insertion order, together with the snapshot row
itself. -/
theorem save_get_roundtrip (db : DB) (now server notes : String)
    (psiIns : List PsiIn) (geoIns : List GeoIn) (sid : Nat) (db' : DB)
    (hpsi : ∀ r ∈ psiIns, textLike r.url = true ∧ textLike r.status = true ∧
      numOrNull r.score = true ∧ textLike r.lcp = true ∧ textLike r.cls = true)
    (hgeo : ∀ r ∈ geoIns, textLike r.query = true ∧ textLike r.status = true)
    (hfS : ∀ s ∈ db.snapshots, s.id ≠ db.nextSnapId)
    (hfP : ∀ r ∈ db.psi, r.snapshot_id ≠ db.nextSnapId)
    (hfG : ∀ r ∈ db.geo, r.snapshot_id ≠ db.nextSnapId)
    (hsave : save_snapshot db now server notes psiIns geoIns none =
      (Except.ok sid, db')) :
    get_snapshot db' sid =
      some (⟨sid, now, server, notes⟩,
        psiIns.map (fun r => (⟨r.url, r.status, r.score, r.lcp, r.cls, r.raw⟩ : PsiOut)),
        geoIns.map (fun r => (⟨r.query, r.status, r.result⟩ : GeoOut))) := by
  have h1 : (save_snapshot db now server notes psiIns geoIns none).1 =
      Except.ok sid := by rw [hsave]
  obtain ⟨hsid, hdb⟩ :=
    save_snapshot_ok_state db now server notes psiIns geoIns none sid h1
  have hdb' : db' = commitDB db now server notes psiIns geoIns := by
    rw [← hdb, hsave]
  subst hdb'
  subst hsid
  have hfind : (commitDB db now server notes psiIns geoIns).snapshots.find?
      (fun s => s.id == db.nextSnapId) =
      some ⟨db.nextSnapId, now, server, notes⟩ := by
    exact find_fresh_snap db.snapshots ⟨db.nextSnapId, now, server, notes⟩ hfS
  rw [get_snapshot, hfind]
  simp only [commitDB, List.filter_append]
  rw [filter_psi_fresh db.psi db.nextSnapId hfP,
      filter_geo_fresh db.geo db.nextSnapId hfG,
      storedPsi_filter_own db.nextSnapId db.nextPsiId psiIns,
      storedGeo_filter_own db.nextSnapId db.nextGeoId geoIns]
  simp only [List.nil_append]
  rw [storedPsi_decode db.nextSnapId db.nextPsiId psiIns hpsi,
      storedGeo_decode db.nextSnapId db.nextGeoId geoIns hgeo]

/-- Witness for C5: the spec's own example row set round-trips. -/
theorem save_get_roundtrip_witness :
    get_snapshot
      (commitDB ⟨[], [], [], 1, 1, 1⟩ "t" "local" "t1"
        [⟨Json.str "https://a.com", Json.str "ok", Json.num (91/100),
          Json.str "1.2s", Json.str "0.01",
          Json.obj [("lighthouseResult", Json.obj [])]⟩]
        [⟨Json.str "best plumber", Json.str "stub",
          Json.obj [("note", Json.str "OpenAI not configured")]⟩]) 1 =
      some (⟨1, "t", "local", "t1"⟩,
        [⟨Json.str "https://a.com", Json.str "ok", Json.num (91/100),
          Json.str "1.2s", Json.str "0.01",
          Json.obj [("lighthouseResult", Json.obj [])]⟩],
        [⟨Json.str "best plumber", Json.str "stub",
          Json.obj [("note", Json.str "OpenAI not configured")]⟩]) :=
  save_get_roundtrip ⟨[], [], [], 1, 1, 1⟩ "t" "local" "t1"
    [⟨Json.str "https://a.com", Json.str "ok", Json.num (91/100),
      Json.str "1.2s", Json.str "0.01",
      Json.obj [("lighthouseResult", Json.obj [])]⟩]
    [⟨Json.str "best plumber", Json.str "stub",
      Json.obj [("note", Json.str "OpenAI not configured")]⟩]
    1 _
    (by decide) (by decide) (by decide) (by decide) (by decide) rfl

/-! ### C6: per-URL rows and failure isolation on the PSI path -/

theorem buildPsiRow_url (u : String) (o : PsiOutcome) (r : PsiIn)
    (h : buildPsiRow u o = Except.ok r) : r.url = Json.str u := by
  cases o with
  | err e =>
    simp only [buildPsiRow, Except.ok.injEq] at h
    rw [← h]; rfl
  | ok resp =>
    simp only [buildPsiRow, Except.map] at h
    rcases hx : extractPsiFields resp with e | f
    · rw [hx] at h; exact absurd h (by simp)
    · rw [hx] at h
      simp only [Except.ok.injEq] at h
      rw [← h]

theorem psiSection_ok_length :
    ∀ (urls : List String) (outcomes : List PsiOutcome) (rows : List PsiIn),
    psiSection urls outcomes = Except.ok rows →
    outcomes.length = urls.length →
    rows.length = urls.length := by
  intro urls
  induction urls with
  | nil =>
    intro outcomes rows h _
    cases outcomes <;> simp only [psiSection, Except.ok.injEq] at h <;>
      rw [← h] <;> rfl
  | cons u us ih =>
    intro outcomes rows h hlen
    cases outcomes with
    | nil => exact absurd hlen (by simp)
    | cons o os =>
      simp only [psiSection, bind, Except.bind] at h
      rcases hb : buildPsiRow u o with e | row
      · rw [hb] at h; exact absurd h (by simp)
      · rw [hb] at h
        rcases hr : psiSection us os with e | rest
        · rw [hr] at h; exact absurd h (by simp)
        · rw [hr] at h
          simp only [Except.ok.injEq] at h
          rw [← h]
          simp only [List.length_cons]
          rw [ih os rest hr (by simpa using hlen)]

theorem psiSection_ok_urls :
    ∀ (urls : List String) (outcomes : List PsiOutcome) (rows : List PsiIn),
    psiSection urls outcomes = Except.ok rows →
    outcomes.length = urls.length →
    ∀ j, (rows.get? j).map PsiIn.url = (urls.get? j).map Json.str := by
  intro urls
  induction urls with
  | nil =>
    intro outcomes rows h _
    cases outcomes <;> simp only [psiSection, Except.ok.injEq] at h <;>
      rw [← h] <;> intro j <;> rfl
  | cons u us ih =>
    intro outcomes rows h hlen
    cases outcomes with
    | nil => exact absurd hlen (by simp)
    | cons o os =>
      simp only [psiSection, bind, Except.bind] at h
      rcases hb : buildPsiRow u o with e | row
      · rw [hb] at h; exact absurd h (by simp)
      · rw [hb] at h
        rcases hr : psiSection us os with e | rest
        · rw [hr] at h; exact absurd h (by simp)
        · rw [hr] at h
          simp only [Except.ok.injEq] at h
          rw [← h]
          intro j
          cases j with
          | zero => simp [buildPsiRow_url u o row hb]
          | succ j =>
            simpa using ih os rest hr (by simpa using hlen) j

theorem psiSection_set_err :
    ∀ (urls : List String) (outcomes : List PsiOutcome) (rows : List PsiIn)
      (i : Nat) (e : String),
    psiSection urls outcomes = Except.ok rows →
    psiSection urls (outcomes.set i (PsiOutcome.err e)) =
      Except.ok (rows.set i (psiErrorRow (urls.getD i "") e)) := by
  intro urls
  induction urls with
  | nil =>
    intro outcomes rows i e h
    cases outcomes <;> simp only [psiSection, Except.ok.injEq] at h <;>
      rw [← h] <;> cases i <;> rfl
  | cons u us ih =>
    intro outcomes rows i e h
    cases outcomes with
    | nil =>
      simp only [psiSection, Except.ok.injEq] at h
      rw [← h]
      simp [psiSection]
    | cons o os =>
      simp only [psiSection, bind, Except.bind] at h
      rcases hb : buildPsiRow u o with er | row
      · rw [hb] at h; exact absurd h (by simp)
      · rw [hb] at h
        rcases hr : psiSection us os with er | rest
        · rw [hr] at h; exact absurd h (by simp)
        · rw [hr] at h
          simp only [Except.ok.injEq] at h
          rw [← h]
          cases i with
          | zero =>
            simp only [List.set_cons_zero, List.getD_cons_zero]
            simp [psiSection, buildPsiRow, bind, Except.bind, hr]
          | succ i =>
            simp only [List.set_cons_succ, List.getD_cons_succ]
            simp only [psiSection, bind, Except.bind, hb, ih os rest i e hr]

/-- C6: the PSI collection produces exactly one row per URL in input order
(the j-th row's url is the j-th URL); failing the call for URL `i` turns
exactly row `i` into the error row (`status="error"`, null
score/lcp/cls, the error text as `raw`) and leaves every other row
unchanged. -/
theorem psi_per_url_isolation (urls : List String)
    (outcomes : List PsiOutcome) (rows : List PsiIn) (i : Nat) (e : String)
    (hok : psiSection urls outcomes = Except.ok rows)
    (hlen : outcomes.length = urls.length) :
    rows.length = urls.length ∧
    (∀ j, (rows.get? j).map PsiIn.url = (urls.get? j).map Json.str) ∧
    psiSection urls (outcomes.set i (PsiOutcome.err e)) =
      Except.ok (rows.set i (psiErrorRow (urls.getD i "") e)) :=
  ⟨psiSection_ok_length urls outcomes rows hok hlen,
   psiSection_ok_urls urls outcomes rows hok hlen,
   psiSection_set_err urls outcomes rows i e hok⟩

/-- Witness for C6: three URLs, the second call failing, yield exactly
three rows with the error row in the middle. -/
theorem psi_per_url_isolation_witness :
    (psiSection ["https://a.com", "https://b.com", "https://c.com"]
      ([PsiOutcome.ok (Json.obj []), PsiOutcome.ok (Json.obj []),
        PsiOutcome.ok (Json.obj [])].set 1 (PsiOutcome.err "timeout")) =
      Except.ok
        ([⟨Json.str "https://a.com", Json.str "ok", Json.null, Json.null,
           Json.null, Json.obj []⟩,
          ⟨Json.str "https://b.com", Json.str "ok", Json.null, Json.null,
           Json.null, Json.obj []⟩,
          ⟨Json.str "https://c.com", Json.str "ok", Json.null, Json.null,
           Json.null, Json.obj []⟩].set 1
          (psiErrorRow "https://b.com" "timeout"))) ∧
    ([⟨Json.str "https://a.com", Json.str "ok", Json.null, Json.null,
       Json.null, Json.obj []⟩,
      ⟨Json.str "https://b.com", Json.str "ok", Json.null, Json.null,
       Json.null, Json.obj []⟩,
      ⟨Json.str "https://c.com", Json.str "ok", Json.null, Json.null,
       Json.null, Json.obj []⟩] : List PsiIn).length = 3 :=
  ⟨(psi_per_url_isolation ["https://a.com", "https://b.com", "https://c.com"]
      [PsiOutcome.ok (Json.obj []), PsiOutcome.ok (Json.obj []),
       PsiOutcome.ok (Json.obj [])]
      [⟨Json.str "https://a.com", Json.str "ok", Json.null, Json.null,
        Json.null, Json.obj []⟩,
       ⟨Json.str "https://b.com", Json.str "ok", Json.null, Json.null,
        Json.null, Json.obj []⟩,
       ⟨Json.str "https://c.com", Json.str "ok", Json.null, Json.null,
        Json.null, Json.obj []⟩] 1 "timeout" rfl rfl).2.2,
   rfl⟩

/-! ### C7: GEO batch failure and stub policy -/

/-- C7: on the GEO path, a failed batched call (or a raised parse) records
every query as an error row carrying the failure description; a parsed
response that is not iterable likewise errors every query; and an
unconfigured provider records every query as a stub row noting that the
provider is disabled. -/
theorem geo_batch_failure_rows (queries : List String) (e te : String)
    (j : Json) (hiter : pyIterate j = Except.error te) :
    geoSection queries (GeoCfg.configured (GeoCallOutcome.raised e)) =
      queries.map (geoErrorRow e) ∧
    geoSection queries (GeoCfg.configured (GeoCallOutcome.parsed j)) =
      queries.map (geoErrorRow te) ∧
    geoSection queries GeoCfg.unconfigured = queries.map geoStubRow := by
  cases queries with
  | nil => simp [geoSection]
  | cons q qs => simp [geoSection, hiter]

/-- Witness for C7 at the spec's example query, with the batched call
raising, the response parsing to a non-iterable value, and the provider
unconfigured. -/
theorem geo_batch_failure_rows_witness :
    geoSection ["best plumber"] (GeoCfg.configured (GeoCallOutcome.raised "boom")) =
      [geoErrorRow "boom" "best plumber"] ∧
    geoSection ["best plumber"] (GeoCfg.configured (GeoCallOutcome.parsed (Json.num 5))) =
      [geoErrorRow "TypeError: object is not iterable" "best plumber"] ∧
    geoSection ["best plumber"] GeoCfg.unconfigured = [geoStubRow "best plumber"] :=
  geo_batch_failure_rows ["best plumber"] "boom"
    "TypeError: object is not iterable" (Json.num 5) rfl

/-! ### C10: an empty trigger with save=true still persists a snapshot -/

/-- C10: a trigger call with `save=true` and empty url/query lists persists
a snapshot owning zero result rows: the response reports the fresh positive
snapshot id, `psi_count=0`, `geo_count=0`, `saved=true`, and the database
gains exactly one snapshot row and no result rows. -/
theorem trigger_empty_lists_saves (db : DB) (cfg : GeoCfg)
    (notes : Option String) (server now : String)
    (hpos : 1 ≤ db.nextSnapId) :
    snapshots_trigger db [] [] [] cfg true notes server now none none =
      Except.ok (⟨some db.nextSnapId, 0, 0, true, [], []⟩,
        { db with
          snapshots := db.snapshots ++ [⟨db.nextSnapId, now, server, notesOr notes⟩],
          nextSnapId := db.nextSnapId + 1 }) ∧
    0 < db.nextSnapId := by
  refine ⟨?_, hpos⟩
  have hsaved : savedFlag (some db.nextSnapId) = true := by
    simp [savedFlag]; omega
  simp [snapshots_trigger, psiSection, geoSection, save_snapshot,
    runPsiInserts, runGeoInserts, mkTriggerResponse, previewRows, hsaved]

/-- Witness for C10 on the empty database. -/
theorem trigger_empty_lists_saves_witness :
    snapshots_trigger ⟨[], [], [], 1, 1, 1⟩ [] [] [] GeoCfg.unconfigured true
        none "local" "2024-01-01T00:00:00Z" none none =
      Except.ok (⟨some 1, 0, 0, true, [], []⟩,
        ⟨[⟨1, "2024-01-01T00:00:00Z", "local", "manual trigger"⟩], [], [], 2, 1, 1⟩) ∧
    0 < 1 :=
  trigger_empty_lists_saves ⟨[], [], [], 1, 1, 1⟩ GeoCfg.unconfigured none
    "local" "2024-01-01T00:00:00Z" (by decide)

/-! ### C3: persistence failure handling in the trigger (corrected) -/

/-- Counterexample to C3 as stated: with one query collected (a stub row is
in memory) and the snapshot INSERT failing, the trigger does not return the
results with `saved=false` — it raises `HTTPException(500)`, so the failure
replaces the result payload. -/
theorem trigger_save_failure_drops_results :
    snapshots_trigger ⟨[], [], [], 1, 1, 1⟩ [] [] ["best plumber"]
        GeoCfg.unconfigured true none "local" "2024-01-01T00:00:00Z" none (some 0) =
      Except.error "Failed to save snapshot: sqlite3.OperationalError" := rfl

/-- C3 as amended: when `save=true` and the persistence step (`init_db` or
`save_snapshot`) fails, the trigger raises an HTTP 500 error carrying the
failure message and returns no result payload; the collected results are
returned with `saved=false` and `snapshot_id=null` exactly when
`save=false`. -/
theorem trigger_persist_failure_raises (db : DB) (urls : List String)
    (outcomes : List PsiOutcome) (queries : List String) (cfg : GeoCfg)
    (notes : Option String) (server now : String) (failAt : Option Nat)
    (psiRows : List PsiIn)
    (hok : psiSection urls outcomes = Except.ok psiRows) :
    (∀ e, snapshots_trigger db urls outcomes queries cfg true notes server now
        (some e) failAt = Except.error ("Failed to save snapshot: " ++ e)) ∧
    (∀ e, (save_snapshot db now server (notesOr notes) psiRows
        (geoSection queries cfg) failAt).1 = Except.error e →
      snapshots_trigger db urls outcomes queries cfg true notes server now
        none failAt = Except.error ("Failed to save snapshot: " ++ e)) ∧
    (snapshots_trigger db urls outcomes queries cfg false notes server now
        none failAt =
      Except.ok (mkTriggerResponse none psiRows (geoSection queries cfg), db)) := by
  refine ⟨?_, ?_, ?_⟩
  · intro e
    simp [snapshots_trigger, hok]
  · intro e he
    simp only [snapshots_trigger, hok, if_true]
    rcases hs : save_snapshot db now server (notesOr notes) psiRows
        (geoSection queries cfg) failAt with ⟨res, dbx⟩
    rw [hs] at he
    cases res with
    | error e0 =>
      simp only at he
      rw [he]
    | ok sid => exact absurd he (by simp)
  · simp [snapshots_trigger, hok]

/-- Witness for C3's amended statement: a failing `init_db` yields the 500
error, at concrete inputs. -/
theorem trigger_persist_failure_raises_witness :
    snapshots_trigger ⟨[], [], [], 1, 1, 1⟩ [] [] ["q"] GeoCfg.unconfigured
        true none "local" "t" (some "disk full") none =
      Except.error "Failed to save snapshot: disk full" :=
  (trigger_persist_failure_raises ⟨[], [], [], 1, 1, 1⟩ [] [] ["q"]
    GeoCfg.unconfigured none "local" "t" none [] rfl).1 "disk full"

/-! ### C4: row counts of a successful trigger (corrected) -/

theorem geoSection_unconfigured_length (queries : List String) :
    (geoSection queries GeoCfg.unconfigured).length = queries.length := by
  cases queries <;> simp [geoSection]

theorem geoSection_raised_length (queries : List String) (e : String) :
    (geoSection queries
      (GeoCfg.configured (GeoCallOutcome.raised e))).length = queries.length := by
  cases queries <;> simp [geoSection]

theorem geoSection_parsed_ok (queries : List String) (j : Json)
    (items : List Json) (rows0 : List GeoIn) (hq : queries ≠ [])
    (hit : pyIterate j = Except.ok items)
    (hpr : processGeoItems items = Except.ok rows0) :
    geoSection queries (GeoCfg.configured (GeoCallOutcome.parsed j)) = rows0 := by
  cases queries with
  | nil => exact absurd rfl hq
  | cons q qs => simp [geoSection, hit, hpr]

/-- Counterexample to C4 as stated: a successful trigger whose batched
answer parses to an empty collection reports `geo_count = 0` although one
query was supplied. -/
theorem trigger_geo_count_mismatch :
    (snapshots_trigger ⟨[], [], [], 1, 1, 1⟩ [] [] ["best plumber"]
        (GeoCfg.configured (GeoCallOutcome.parsed (Json.arr []))) false none
        "local" "t" none none =
      Except.ok (⟨none, 0, 0, false, [], []⟩, ⟨[], [], [], 1, 1, 1⟩)) ∧
    (["best plumber"] : List String).length = 1 := ⟨rfl, rfl⟩

/-- C4 as amended: for every successful trigger call, `psi_count` equals the
number of input URLs regardless of how many PSI calls failed; `geo_count`
equals the number of rows the GEO section produced — which is the number of
input queries in the unconfigured and call/parse-failure paths, but the
number of parsed items when the batched response parses and processes
successfully (it can differ from the query count). -/
theorem trigger_counts (db : DB) (urls : List String)
    (outcomes : List PsiOutcome) (queries : List String) (cfg : GeoCfg)
    (save : Bool) (notes : Option String) (server now : String)
    (initFail : Option String) (failAt : Option Nat)
    (resp : TriggerResponse) (db2 : DB)
    (hlen : outcomes.length = urls.length)
    (htr : snapshots_trigger db urls outcomes queries cfg save notes server
      now initFail failAt = Except.ok (resp, db2)) :
    resp.psi_count = urls.length ∧
    resp.geo_count = (geoSection queries cfg).length ∧
    (cfg = GeoCfg.unconfigured → resp.geo_count = queries.length) ∧
    (∀ e, cfg = GeoCfg.configured (GeoCallOutcome.raised e) →
      resp.geo_count = queries.length) ∧
    (∀ j items rows0, queries ≠ [] →
      cfg = GeoCfg.configured (GeoCallOutcome.parsed j) →
      pyIterate j = Except.ok items →
      processGeoItems items = Except.ok rows0 →
      resp.geo_count = rows0.length) := by
  rcases hps : psiSection urls outcomes with e | psiRows
  · rw [snapshots_trigger, hps] at htr
    exact absurd htr (by simp)
  · have hresp : resp.psi_count = psiRows.length ∧
        resp.geo_count = (geoSection queries cfg).length := by
      rw [snapshots_trigger, hps] at htr
      cases save with
      | false =>
        simp only [Bool.false_eq_true, if_false, Except.ok.injEq,
          Prod.mk.injEq] at htr
        rw [← htr.1]
        exact ⟨rfl, rfl⟩
      | true =>
        simp only [if_true] at htr
        cases initFail with
        | some e0 => exact absurd htr (by simp)
        | none =>
          rcases hs : save_snapshot db now server (notesOr notes) psiRows
              (geoSection queries cfg) failAt with ⟨res, dbx⟩
          rw [hs] at htr
          cases res with
          | error e0 => exact absurd htr (by simp)
          | ok sid =>
            simp only [Except.ok.injEq, Prod.mk.injEq] at htr
            rw [← htr.1]
            exact ⟨rfl, rfl⟩
    obtain ⟨hp, hg⟩ := hresp
    refine ⟨?_, hg, ?_, ?_, ?_⟩
    · rw [hp]
      exact psiSection_ok_length urls outcomes psiRows hps hlen
    · intro hc
      rw [hg, hc]
      exact geoSection_unconfigured_length queries
    · intro e0 hc
      rw [hg, hc]
      exact geoSection_raised_length queries e0
    · intro j items rows0 hq hc hit hpr
      rw [hg, hc, geoSection_parsed_ok queries j items rows0 hq hit hpr]

/-- Witness for C4's amended statement at concrete inputs (one URL, one
query, response parsed to the empty collection, `save=false`). -/
theorem trigger_counts_witness :
    (⟨none, 1, 0, false,
      [⟨Json.str "u", Json.str "ok", Json.null, Json.null, Json.null,
        Json.obj []⟩], []⟩ : TriggerResponse).psi_count =
        (["u"] : List String).length ∧
    (⟨none, 1, 0, false,
      [⟨Json.str "u", Json.str "ok", Json.null, Json.null, Json.null,
        Json.obj []⟩], []⟩ : TriggerResponse).geo_count =
      (geoSection ["q"]
        (GeoCfg.configured (GeoCallOutcome.parsed (Json.arr [])))).length ∧
    (GeoCfg.configured (GeoCallOutcome.parsed (Json.arr [])) =
        GeoCfg.unconfigured →
      (⟨none, 1, 0, false,
        [⟨Json.str "u", Json.str "ok", Json.null, Json.null, Json.null,
          Json.obj []⟩], []⟩ : TriggerResponse).geo_count =
        (["q"] : List String).length) ∧
    (∀ e, GeoCfg.configured (GeoCallOutcome.parsed (Json.arr [])) =
        GeoCfg.configured (GeoCallOutcome.raised e) →
      (⟨none, 1, 0, false,
        [⟨Json.str "u", Json.str "ok", Json.null, Json.null, Json.null,
          Json.obj []⟩], []⟩ : TriggerResponse).geo_count =
        (["q"] : List String).length) ∧
    (∀ j items rows0, (["q"] : List String) ≠ [] →
      GeoCfg.configured (GeoCallOutcome.parsed (Json.arr [])) =
        GeoCfg.configured (GeoCallOutcome.parsed j) →
      pyIterate j = Except.ok items →
      processGeoItems items = Except.ok rows0 →
      (⟨none, 1, 0, false,
        [⟨Json.str "u", Json.str "ok", Json.null, Json.null, Json.null,
          Json.obj []⟩], []⟩ : TriggerResponse).geo_count = rows0.length) :=
  trigger_counts ⟨[], [], [], 1, 1, 1⟩ ["u"] [PsiOutcome.ok (Json.obj [])]
    ["q"] (GeoCfg.configured (GeoCallOutcome.parsed (Json.arr []))) false
    none "local" "t" none none
    ⟨none, 1, 0, false,
      [⟨Json.str "u", Json.str "ok", Json.null, Json.null, Json.null,
        Json.obj []⟩], []⟩ ⟨[], [], [], 1, 1, 1⟩ rfl rfl

end ExtraRank
